import Mathlib

/-!
Verification of the dynamic-pricing agentic system's core signal-fusion and
decision engine, shallowly embedded from the Python sources.  Prices,
scores and factors are modelled as rationals (the Python code works in
`float`; all constants and claim inputs here are exact decimals, so no
rounding discrepancy from the binary floats arises at the inputs used).
Database reads (product record, sales rows, inventory snapshot, competitor
rows) are passed as explicit arguments; the `try/except` wrappers around
database access are outside the model, so the embedded functions are total
on the data the claims quantify over.
-/

namespace DynamicPricing

/-- Rounding to two decimal places, as Python's `round(x, 2)` on the exact
decimal values occurring in this development (Python rounds the underlying
binary float half-to-even; `round` here rounds half up, which agrees with
it away from exact half-cent boundaries, and no value in this file sits on
such a boundary). -/
def round2 (q : ℚ) : ℚ := (round (q * 100) : ℚ) / 100

/-! ## `decide_price` (src/agents/pricing_decision_agent.py, lines 22-85)

The function returns `(new_price, reasoning_chain)`; the reasoning chain is
a list of audit strings that does not influence the price, so the embedding
returns only the price. -/

/-- Step 1 of `decide_price`: demand factor. -/
def demandFactor (demand_score : ℚ) : ℚ :=
  if demand_score > 8/10 then 110/100
  else if demand_score < 3/10 then 95/100
  else 1

/-- Step 2 of `decide_price`: inventory factor. -/
def inventoryFactor (inventory_level : ℤ) : ℚ :=
  if inventory_level < 5 then 105/100
  else if inventory_level > 50 then 98/100
  else 1

/-- Step 3 of `decide_price`: competitor factor (Python's
`if competitor_prices:` is the nonemptiness test on the list). -/
def competitorFactor (competitor_prices : List ℚ) (base_price : ℚ) : ℚ :=
  if competitor_prices.length ≠ 0 then
    let avg := competitor_prices.sum / competitor_prices.length
    if base_price < avg * (9/10) then min (105/100) (avg / base_price)
    else if base_price > avg * (11/10) then max (95/100) (avg / base_price)
    else 1
  else 1

/-- `decide_price`: multiplies the three factors into the base price and
clamps the result to `[0.8 * base, 1.3 * base]` (`max` below the floor is
applied first, then `min` against the ceiling, exactly as in the source). -/
def decide_price (competitor_prices : List ℚ) (demand_score : ℚ)
    (inventory_level : ℤ) (base_price : ℚ) : ℚ :=
  let new_price := base_price * demandFactor demand_score *
    inventoryFactor inventory_level * competitorFactor competitor_prices base_price
  let clamped_lo := max new_price (base_price * (8/10))
  min clamped_lo (base_price * (13/10))

/-- C1: for every positive `base_price` and arbitrary demand score,
inventory level and competitor price list, the price computed by
`decide_price` lies within `[0.8 * base_price, 1.3 * base_price]`. -/
theorem decide_price_bounded (competitor_prices : List ℚ) (demand_score : ℚ)
    (inventory_level : ℤ) (base_price : ℚ) (hp : 0 < base_price) :
    base_price * (8/10) ≤ decide_price competitor_prices demand_score inventory_level base_price ∧
    decide_price competitor_prices demand_score inventory_level base_price ≤ base_price * (13/10) := by
  unfold decide_price
  constructor
  · apply le_min
    · exact le_max_right _ _
    · nlinarith
  · exact min_le_right _ _

/-- Witness for C1 at a concrete input. -/
theorem decide_price_bounded_witness :
    (0:ℚ) < 100 ∧
    ((100:ℚ) * (8/10) ≤ decide_price [95, 105] (9/10) 3 100 ∧
      decide_price [95, 105] (9/10) 3 100 ≤ 100 * (13/10)) :=
  ⟨by norm_num, decide_price_bounded [95, 105] (9/10) 3 100 (by norm_num)⟩

/-- C3: on the scenario base_price = 100, demand_score = 0.9,
inventory_level = 3, competitor_prices = [95, 105], the three factors are
1.10, 1.05 and 1.0 and the final price is 115.50, inside the clamp. -/
theorem decide_price_scenario :
    demandFactor (9/10) = 110/100 ∧
    inventoryFactor 3 = 105/100 ∧
    competitorFactor [95, 105] 100 = 1 ∧
    decide_price [95, 105] (9/10) 3 100 = 11550/100 ∧
    (100:ℚ) * (8/10) ≤ 11550/100 ∧ (11550:ℚ)/100 ≤ 100 * (13/10) := by
  refine ⟨by norm_num [demandFactor], by norm_num [inventoryFactor], ?_, ?_, by norm_num, by norm_num⟩
  · norm_num [competitorFactor]
  · norm_num [decide_price, demandFactor, inventoryFactor, competitorFactor]

/-! ## Sales velocity (src/tools/demand_tools.py, lines 12-63)

A sale event is modelled by the day (date granularity, as `sale.sale_date.date()`)
on which it happened and the quantity sold; the database query restricts to
the window, so the list argument stands for the rows returned for it. -/

/-- One `SalesData` row restricted to the fields the velocity and demand
calculations read. -/
structure SaleEvent where
  day : ℕ
  qty : ℕ
deriving DecidableEq, Repr

/-- `sum(sale.quantity_sold for sale in sales_data)`. -/
def totalUnits (sales : List SaleEvent) : ℕ := (sales.map (·.qty)).sum

/-- `len(daily_sales)` — the number of distinct sale days in the window. -/
def distinctDays (sales : List SaleEvent) : ℕ := ((sales.map (·.day)).dedup).length

/-- The dictionary `calculate_sales_velocity` returns.  On the no-data path
the source omits the `days_with_sales` key; it is 0 here.  The `error` key
only ever appears via the `except` handler around database access, which is
outside the model, hence no error field. -/
structure VelocityResult where
  sales_velocity : ℚ
  total_units_sold : ℕ
  period_days : ℕ
  days_with_sales : ℕ
  confidence : ℚ
deriving DecidableEq, Repr

/-- `calculate_sales_velocity`: units per day over the window, with a
consistency-based confidence `round(min(0.95, distinct_days / days), 2)`.
An empty row set returns velocity 0.0 and confidence 0.0 (not an error). -/
def calculate_sales_velocity (sales : List SaleEvent) (days : ℕ) : VelocityResult :=
  if sales.length = 0 then
    { sales_velocity := 0, total_units_sold := 0, period_days := days,
      days_with_sales := 0, confidence := 0 }
  else
    let total := totalUnits sales
    let velocity : ℚ := total / days
    let consistency : ℚ := distinctDays sales / days
    { sales_velocity := round2 velocity, total_units_sold := total,
      period_days := days, days_with_sales := distinctDays sales,
      confidence := round2 (min (95/100) consistency) }

/-! ## Demand score (src/tools/demand_tools.py, lines 65-169) -/

/-- A `Product` row restricted to the fields the analysed functions read.
Optional fields are `None`-able columns; Python's `x or d` default takes
`d` both when `x` is `None` and when `x == 0`, see `pyOr`. -/
structure Product where
  base_price : ℚ
  current_price : Option ℚ
  cost_price : Option ℚ
  demand_score : Option ℚ
  price_elasticity : Option ℚ
deriving DecidableEq, Repr

/-- Python's `x or d` on an optional numeric column: `d` when the value is
missing or zero (0.0 is falsy). -/
def pyOr (x : Option ℚ) (d : ℚ) : ℚ :=
  match x with
  | none => d
  | some v => if v = 0 then d else v

/-- The latest `InventoryLevel` row for a product. -/
structure InventorySnap where
  stock_level : ℕ
  reorder_point : ℕ
  max_stock : ℕ
deriving DecidableEq, Repr

/-- Factor 1: step function over the (rounded) 7-day sales velocity. -/
def velocityScore (v : ℚ) : ℚ :=
  if v > 20 then 1
  else if v > 10 then 8/10
  else if v > 5 then 6/10
  else if v > 1 then 4/10
  else 2/10

/-- Factor 2: step function over current stock against the reorder point. -/
def turnoverScore (stock reorder : ℕ) : ℚ :=
  if stock = 0 then 1
  else if stock ≤ reorder then 9/10
  else if stock ≤ reorder * 2 then 7/10
  else if stock ≤ reorder * 3 then 5/10
  else 3/10

/-- Factor 3: 3-day velocity against 7-day velocity. -/
def trendScore (recent older : ℚ) : ℚ :=
  if recent > older then 9/10
  else if recent = older then 7/10
  else 5/10

/-- Factor 4: step function over the price-elasticity coefficient. -/
def elasticityScore (e : ℚ) : ℚ :=
  if e < -(3/2) then 8/10
  else if e > -(1/2) then 6/10
  else 7/10

/-- The four sub-scores dictionary. -/
structure DemandFactors where
  sales_velocity_score : ℚ
  stock_turnover_score : ℚ
  trend_score : ℚ
  elasticity_score : ℚ
deriving DecidableEq, Repr

/-- The dictionary `calculate_demand_score` returns (explanation string and
timestamp omitted: audit only). -/
structure DemandResult where
  demand_score : ℚ
  sales_velocity : ℚ
  current_stock : ℕ
  reorder_point : ℕ
  factors : DemandFactors
  confidence : ℚ
deriving DecidableEq, Repr

/-- `calculate_demand_score`.  The product row is a required argument (the
source returns a `Product not found` error dictionary when it is absent;
the claims quantify over existing products).  `sales7`/`sales3` are the
sale rows of the 7-day and 3-day windows; `inventory` is the latest
inventory row, if any (missing rows default stock to 0 and the reorder
point to 10, as in the source). -/
def calculate_demand_score (product : Product) (sales7 sales3 : List SaleEvent)
    (inventory : Option InventorySnap) : DemandResult :=
  let velocity_data := calculate_sales_velocity sales7 7
  let sales_velocity := velocity_data.sales_velocity
  let current_stock := match inventory with | some inv => inv.stock_level | none => 0
  let reorder_point := match inventory with | some inv => inv.reorder_point | none => 10
  let recent := (calculate_sales_velocity sales3 3).sales_velocity
  let older := (calculate_sales_velocity sales7 7).sales_velocity
  let elasticity := pyOr product.price_elasticity (-1)
  let factors : DemandFactors :=
    { sales_velocity_score := velocityScore sales_velocity,
      stock_turnover_score := turnoverScore current_stock reorder_point,
      trend_score := trendScore recent older,
      elasticity_score := elasticityScore elasticity }
  let score := factors.sales_velocity_score * (4/10) + factors.stock_turnover_score * (3/10) +
    factors.trend_score * (2/10) + factors.elasticity_score * (1/10)
  { demand_score := round2 score, sales_velocity := round2 sales_velocity,
    current_stock := current_stock, reorder_point := reorder_point,
    factors := factors, confidence := velocity_data.confidence }

/-! Shared helper lemmas about `round2` and the sub-score ranges. -/

theorem round2_within (q : ℚ) : q - 1/200 ≤ round2 q ∧ round2 q ≤ q + 1/200 := by
  have h := abs_sub_round (q * 100)
  rw [abs_le] at h
  unfold round2
  constructor
  · linarith [h.2]
  · linarith [h.1]

theorem velocityScore_range (v : ℚ) : 2/10 ≤ velocityScore v ∧ velocityScore v ≤ 1 := by
  unfold velocityScore; split_ifs <;> norm_num

theorem turnoverScore_range (s r : ℕ) : 3/10 ≤ turnoverScore s r ∧ turnoverScore s r ≤ 1 := by
  unfold turnoverScore; split_ifs <;> norm_num

theorem trendScore_range (a b : ℚ) : 5/10 ≤ trendScore a b ∧ trendScore a b ≤ 9/10 := by
  unfold trendScore; split_ifs <;> norm_num

theorem elasticityScore_range (e : ℚ) : 6/10 ≤ elasticityScore e ∧ elasticityScore e ≤ 8/10 := by
  unfold elasticityScore; split_ifs <;> norm_num

theorem weighted_round2_bounds {a b c d : ℚ}
    (ha : 2/10 ≤ a ∧ a ≤ 1) (hb : 3/10 ≤ b ∧ b ≤ 1)
    (hc : 5/10 ≤ c ∧ c ≤ 9/10) (hd : 6/10 ≤ d ∧ d ≤ 8/10) :
    0 ≤ round2 (a * (4/10) + b * (3/10) + c * (2/10) + d * (1/10)) ∧
    round2 (a * (4/10) + b * (3/10) + c * (2/10) + d * (1/10)) ≤ 1 := by
  have hr := round2_within (a * (4/10) + b * (3/10) + c * (2/10) + d * (1/10))
  constructor
  · linarith [hr.1, ha.1, hb.1, hc.1, hd.1]
  · linarith [hr.2, ha.2, hb.2, hc.2, hd.2]

/-- C4: the composite demand score equals the weighted sum of the four
sub-scores with weights 0.4/0.3/0.2/0.1 rounded to 2 decimals, always lies
in [0, 1], and the computation is deterministic for identical inputs. -/
theorem demand_score_weighted_bounded (p : Product) (sales7 sales3 : List SaleEvent)
    (inventory : Option InventorySnap) :
    (calculate_demand_score p sales7 sales3 inventory).demand_score =
      round2 ((calculate_demand_score p sales7 sales3 inventory).factors.sales_velocity_score * (4/10) +
        (calculate_demand_score p sales7 sales3 inventory).factors.stock_turnover_score * (3/10) +
        (calculate_demand_score p sales7 sales3 inventory).factors.trend_score * (2/10) +
        (calculate_demand_score p sales7 sales3 inventory).factors.elasticity_score * (1/10)) ∧
    0 ≤ (calculate_demand_score p sales7 sales3 inventory).demand_score ∧
    (calculate_demand_score p sales7 sales3 inventory).demand_score ≤ 1 ∧
    (∀ q t7 t3 inv2, p = q → sales7 = t7 → sales3 = t3 → inventory = inv2 →
      calculate_demand_score p sales7 sales3 inventory = calculate_demand_score q t7 t3 inv2) := by
  refine ⟨rfl, ?_, ?_, ?_⟩
  · exact (weighted_round2_bounds (velocityScore_range _) (turnoverScore_range _ _)
      (trendScore_range _ _) (elasticityScore_range _)).1
  · exact (weighted_round2_bounds (velocityScore_range _) (turnoverScore_range _ _)
      (trendScore_range _ _) (elasticityScore_range _)).2
  · rintro q t7 t3 inv2 rfl rfl rfl rfl
    rfl

/-- Sample product used in witnesses. -/
def sampleProduct : Product :=
  { base_price := 100, current_price := some 89, cost_price := some 50,
    demand_score := some (1/2), price_elasticity := some (-1) }

/-- Witness for C4 at a concrete input. -/
theorem demand_score_weighted_bounded_witness :
    0 ≤ (calculate_demand_score sampleProduct [] [] none).demand_score ∧
    calculate_demand_score sampleProduct [] [] none =
      calculate_demand_score sampleProduct [] [] none :=
  ⟨(demand_score_weighted_bounded sampleProduct [] [] none).2.1,
   (demand_score_weighted_bounded sampleProduct [] [] none).2.2.2
     sampleProduct [] [] none rfl rfl rfl rfl⟩

/-- C10: with an existing product but no inventory row at all,
`calculate_demand_score` still succeeds, substituting stock 0 and reorder
point 10; the stock-turnover sub-score becomes the out-of-stock value 1.0
(as it does for any genuinely out-of-stock product), and the whole result
is identical to that of a product whose latest snapshot records stock 0
and reorder point 10. -/
theorem demand_score_missing_inventory (p : Product) (sales7 sales3 : List SaleEvent) (m : ℕ) :
    (calculate_demand_score p sales7 sales3 none).current_stock = 0 ∧
    (calculate_demand_score p sales7 sales3 none).reorder_point = 10 ∧
    (calculate_demand_score p sales7 sales3 none).factors.stock_turnover_score = 1 ∧
    calculate_demand_score p sales7 sales3 none =
      calculate_demand_score p sales7 sales3 (some ⟨0, 10, m⟩) ∧
    (∀ r : ℕ, turnoverScore 0 r = 1) :=
  ⟨rfl, rfl, rfl, rfl, fun _ => rfl⟩

/-- C9 counterexample: three sale events on three distinct days of a 7-day
window.  The confidence returned by the code is `round(3/7, 2) = 0.43`,
which differs from the claim's `min(0.95, distinct_days / days) = 3/7`. -/
theorem velocity_confidence_counterexample :
    (calculate_sales_velocity [⟨0, 1⟩, ⟨1, 1⟩, ⟨2, 1⟩] 7).confidence ≠
      min (95/100) ((3:ℚ)/7) := by
  have hd : distinctDays [⟨0, 1⟩, ⟨1, 1⟩, ⟨2, 1⟩] = 3 := rfl
  have hc : (calculate_sales_velocity [⟨0, 1⟩, ⟨1, 1⟩, ⟨2, 1⟩] 7).confidence =
      round2 (min (95/100) ((distinctDays [⟨0, 1⟩, ⟨1, 1⟩, ⟨2, 1⟩] : ℚ) / ((7:ℕ):ℚ))) := rfl
  rw [hc, hd]
  have hmin : min ((95:ℚ)/100) (((3:ℕ):ℚ) / ((7:ℕ):ℚ)) = 3/7 := by
    rw [min_eq_right] <;> norm_num
  rw [hmin]
  have hround : round ((3:ℚ)/7 * 100) = 43 := by
    rw [round_eq]
    norm_num
  rw [round2, hround]
  norm_num

/-- C9 amended: zero sale events yield velocity 0.0 and confidence 0.0 as a
normal result, and with sale events present the confidence is
`min(0.95, distinct_days_with_sales / days)` rounded to 2 decimals. -/
theorem velocity_zero_and_confidence (sales : List SaleEvent) (days : ℕ)
    (h : sales.length ≠ 0) :
    (calculate_sales_velocity [] days).sales_velocity = 0 ∧
    (calculate_sales_velocity [] days).confidence = 0 ∧
    (calculate_sales_velocity sales days).confidence =
      round2 (min (95/100) ((distinctDays sales : ℚ) / days)) := by
  refine ⟨rfl, rfl, ?_⟩
  unfold calculate_sales_velocity
  rw [if_neg h]

/-- Witness for amended C9 at a concrete input. -/
theorem velocity_zero_and_confidence_witness :
    (calculate_sales_velocity [] 7).sales_velocity = 0 ∧
    (calculate_sales_velocity [] 7).confidence = 0 ∧
    (calculate_sales_velocity [⟨0, 1⟩, ⟨1, 1⟩, ⟨2, 1⟩] 7).confidence =
      round2 (min (95/100) ((distinctDays [⟨0, 1⟩, ⟨1, 1⟩, ⟨2, 1⟩] : ℚ) / 7)) :=
  velocity_zero_and_confidence [⟨0, 1⟩, ⟨1, 1⟩, ⟨2, 1⟩] 7 (by decide)

/-! ## Reorder point (src/tools/inventory_tools.py, lines 12-64) -/

/-- `recommendation` values of `calculate_reorder_point`. -/
inductive Recommendation
  | update
  | maintain
deriving DecidableEq, Repr

/-- The success dictionary of `calculate_reorder_point` (the constant
`lead_time_days`/`safety_stock_days`/`confidence` entries are omitted). -/
structure ReorderOk where
  current_stock : ℕ
  daily_sales_rate : ℚ
  calculated_reorder_point : ℤ
  current_reorder_point : ℕ
  recommendation : Recommendation
deriving DecidableEq, Repr

/-- Result of `calculate_reorder_point`: the two error dictionaries and the
success dictionary. -/
inductive ReorderResult
  | noInventory
  | noSales (recommended_default : ℕ)
  | ok (res : ReorderOk)
deriving DecidableEq, Repr

/-- `calculate_reorder_point`.  `inventory` is the latest `InventoryLevel`
row (absent → the `No inventory data` error); `sales30` are the sale rows
of the 30-day window (empty → the `No sales data` error carrying default
10).  Python's `int(daily_sales * (lead_time_days + safety_stock_days))`
truncates toward zero, which on this nonnegative value is the floor, not
the ceiling. -/
def calculate_reorder_point (inventory : Option InventorySnap)
    (sales30 : List SaleEvent) : ReorderResult :=
  match inventory with
  | none => .noInventory
  | some inv =>
    if sales30.length = 0 then .noSales 10
    else
      let total := totalUnits sales30
      let daily_sales : ℚ := total / 30
      let reorder_point : ℤ := ⌊daily_sales * (7 + 3)⌋
      let reorder_point : ℤ := max reorder_point 5
      .ok { current_stock := inv.stock_level,
            daily_sales_rate := round2 daily_sales,
            calculated_reorder_point := reorder_point,
            current_reorder_point := inv.reorder_point,
            recommendation :=
              if 2 < |reorder_point - (inv.reorder_point : ℤ)| then .update
              else .maintain }

/-- C5 counterexample: 211 units sold over the 30-day window with stored
reorder point 70.  The code truncates `211/30 × 10 = 70.33…` to 70, while
the claimed `ceil` would give 71. -/
theorem reorder_point_counterexample :
    calculate_reorder_point (some ⟨100, 70, 200⟩) [⟨0, 211⟩] =
      ReorderResult.ok
        { current_stock := 100,
          daily_sales_rate := round2 ((totalUnits [⟨0, 211⟩] : ℚ) / 30),
          calculated_reorder_point := 70, current_reorder_point := 70,
          recommendation := Recommendation.maintain } ∧
    (⌈(211:ℚ) / 30 * (7 + 3)⌉ : ℤ) = 71 ∧ (70:ℤ) ≠ 71 := by
  refine ⟨?_, ?_, by norm_num⟩
  · dsimp only [calculate_reorder_point]
    rw [if_neg (by norm_num)]
    have ht : totalUnits [⟨0, 211⟩] = 211 := rfl
    rw [ht]
    have hf : (⌊((211:ℕ):ℚ) / 30 * (7 + 3)⌋ : ℤ) = 70 := by norm_num
    rw [hf]
    norm_num
  · have he : (211:ℚ) / 30 * (7 + 3) = 211 / 3 := by norm_num
    rw [he, Int.ceil_eq_iff]
    norm_num

/-- C5 amended: for a product with inventory data and at least one sale in
the 30-day window, the calculated reorder point is
`floor(daily_sales × (lead_time_days + safety_stock_days))` (truncation,
not `ceil`) with the constants 7 and 3 and `daily_sales = total/30`,
floored at a minimum of 5; the recommendation is `update` exactly when the
calculated point differs from the stored one by more than 2; 210 units over
30 days still yield 70. -/
theorem reorder_point_floor (inv : InventorySnap) (sales30 : List SaleEvent)
    (h : sales30.length ≠ 0) :
    calculate_reorder_point (some inv) sales30 =
      ReorderResult.ok
        { current_stock := inv.stock_level,
          daily_sales_rate := round2 ((totalUnits sales30 : ℚ) / 30),
          calculated_reorder_point := max ⌊(totalUnits sales30 : ℚ) / 30 * (7 + 3)⌋ 5,
          current_reorder_point := inv.reorder_point,
          recommendation :=
            if 2 < |max ⌊(totalUnits sales30 : ℚ) / 30 * (7 + 3)⌋ 5 - (inv.reorder_point : ℤ)|
            then Recommendation.update else Recommendation.maintain } ∧
    (5:ℤ) ≤ max ⌊(totalUnits sales30 : ℚ) / 30 * (7 + 3)⌋ 5 ∧
    (totalUnits sales30 = 210 → max ⌊(totalUnits sales30 : ℚ) / 30 * (7 + 3)⌋ 5 = 70) := by
  refine ⟨?_, le_max_right _ _, ?_⟩
  · dsimp only [calculate_reorder_point]
    rw [if_neg h]
  · intro h210
    rw [h210]
    norm_num

/-- Witness for amended C5 at a concrete input. -/
theorem reorder_point_floor_witness :
    calculate_reorder_point (some ⟨100, 70, 200⟩) [⟨0, 210⟩] =
      ReorderResult.ok
        { current_stock := 100,
          daily_sales_rate := round2 ((totalUnits [⟨0, 210⟩] : ℚ) / 30),
          calculated_reorder_point := max ⌊(totalUnits [⟨0, 210⟩] : ℚ) / 30 * (7 + 3)⌋ 5,
          current_reorder_point := 70,
          recommendation :=
            if 2 < |max ⌊(totalUnits [⟨0, 210⟩] : ℚ) / 30 * (7 + 3)⌋ 5 - ((70:ℕ) : ℤ)|
            then Recommendation.update else Recommendation.maintain } ∧
    (5:ℤ) ≤ max ⌊(totalUnits [⟨0, 210⟩] : ℚ) / 30 * (7 + 3)⌋ 5 ∧
    (totalUnits [⟨0, 210⟩] = 210 → max ⌊(totalUnits [⟨0, 210⟩] : ℚ) / 30 * (7 + 3)⌋ 5 = 70) :=
  reorder_point_floor ⟨100, 70, 200⟩ [⟨0, 210⟩] (by norm_num)

/-! ## Inventory health (src/tools/inventory_tools.py, lines 66-134) -/

/-- `inventory_status` values. -/
inductive InvStatus
  | out_of_stock
  | low_stock
  | critical_low
  | moderate
  | healthy
deriving DecidableEq, Repr

/-- `urgency_level` values. -/
inductive Urgency
  | critical
  | high
  | medium
  | low
deriving DecidableEq, Repr

/-- `days_remaining = stock / daily_sales if daily_sales > 0 else inf`;
`none` encodes `float('inf')`. -/
def daysRemaining (stock : ℕ) (daily : ℚ) : Option ℚ :=
  if 0 < daily then some (stock / daily) else none

/-- Comparison `days_remaining <= n` under the `inf` encoding (`inf <= n`
is false). -/
def daysLe (d : Option ℚ) (n : ℚ) : Bool :=
  match d with
  | some q => decide (q ≤ n)
  | none => false

/-- The status branch of the `if`-chain of `analyze_inventory_health` (the
source assigns status and urgency in one chain; they are split into two
parallel chains with identical conditions here). -/
def invStatus (stock reorder : ℕ) (days_remaining : Option ℚ) : InvStatus :=
  if stock = 0 then .out_of_stock
  else if stock ≤ reorder then .low_stock
  else if daysLe days_remaining 7 then .critical_low
  else if daysLe days_remaining 14 then .moderate
  else .healthy

/-- The urgency branch of the same `if`-chain. -/
def invUrgency (stock reorder : ℕ) (days_remaining : Option ℚ) : Urgency :=
  if stock = 0 then .critical
  else if stock ≤ reorder then .high
  else if daysLe days_remaining 7 then .high
  else if daysLe days_remaining 14 then .medium
  else .low

/-- The dictionary `analyze_inventory_health` returns (recommendation
strings and timestamp omitted; `days_remaining` is kept unrounded — the
source rounds it to 1 decimal for display only, after classification). -/
structure HealthResult where
  current_stock : ℕ
  reorder_point : ℕ
  max_stock : ℕ
  daily_sales_rate : ℚ
  days_remaining : Option ℚ
  stock_turnover_rate : ℚ
  inventory_status : InvStatus
  urgency_level : Urgency
deriving DecidableEq, Repr

/-- `analyze_inventory_health`.  The product row is only fetched for the
NotFound guard in the source and none of its fields are read, so it is not
a parameter; `sales7` are the sale rows of the 7-day window (Python's
`sum(...)/7 if sales_data else 0` equals `total/7` also on the empty
list). -/
def analyze_inventory_health (inv : InventorySnap) (sales7 : List SaleEvent) : HealthResult :=
  let daily_sales : ℚ := (totalUnits sales7 : ℚ) / 7
  let days_remaining := daysRemaining inv.stock_level daily_sales
  { current_stock := inv.stock_level,
    reorder_point := inv.reorder_point,
    max_stock := inv.max_stock,
    daily_sales_rate := round2 daily_sales,
    days_remaining := days_remaining,
    stock_turnover_rate :=
      if 0 < inv.stock_level then round2 (daily_sales * 30 / inv.stock_level) else 0,
    inventory_status := invStatus inv.stock_level inv.reorder_point days_remaining,
    urgency_level := invUrgency inv.stock_level inv.reorder_point days_remaining }

/-- C6: `analyze_inventory_health` classifies status and urgency by the
precedence stock==0 → out_of_stock/critical, stock≤reorder → low_stock/high,
days_remaining≤7 → critical_low/high, days_remaining≤14 → moderate/medium,
else healthy/low; in particular stock 0 gives out_of_stock/critical for
every sales history. -/
theorem inventory_health_classification (inv : InventorySnap) (sales7 : List SaleEvent) :
    ((analyze_inventory_health inv sales7).inventory_status = .out_of_stock ↔
      inv.stock_level = 0) ∧
    ((analyze_inventory_health inv sales7).inventory_status = .low_stock ↔
      inv.stock_level ≠ 0 ∧ inv.stock_level ≤ inv.reorder_point) ∧
    ((analyze_inventory_health inv sales7).inventory_status = .critical_low ↔
      inv.stock_level ≠ 0 ∧ ¬ inv.stock_level ≤ inv.reorder_point ∧
      daysLe (analyze_inventory_health inv sales7).days_remaining 7 = true) ∧
    ((analyze_inventory_health inv sales7).inventory_status = .moderate ↔
      inv.stock_level ≠ 0 ∧ ¬ inv.stock_level ≤ inv.reorder_point ∧
      ¬ daysLe (analyze_inventory_health inv sales7).days_remaining 7 = true ∧
      daysLe (analyze_inventory_health inv sales7).days_remaining 14 = true) ∧
    ((analyze_inventory_health inv sales7).inventory_status = .healthy ↔
      inv.stock_level ≠ 0 ∧ ¬ inv.stock_level ≤ inv.reorder_point ∧
      ¬ daysLe (analyze_inventory_health inv sales7).days_remaining 7 = true ∧
      ¬ daysLe (analyze_inventory_health inv sales7).days_remaining 14 = true) ∧
    ((analyze_inventory_health inv sales7).urgency_level =
      match (analyze_inventory_health inv sales7).inventory_status with
      | .out_of_stock => .critical
      | .low_stock => .high
      | .critical_low => .high
      | .moderate => .medium
      | .healthy => .low) ∧
    (inv.stock_level = 0 →
      (analyze_inventory_health inv sales7).inventory_status = .out_of_stock ∧
      (analyze_inventory_health inv sales7).urgency_level = .critical) := by
  have hs : (analyze_inventory_health inv sales7).inventory_status =
      invStatus inv.stock_level inv.reorder_point
        (daysRemaining inv.stock_level ((totalUnits sales7 : ℚ) / 7)) := rfl
  have hu : (analyze_inventory_health inv sales7).urgency_level =
      invUrgency inv.stock_level inv.reorder_point
        (daysRemaining inv.stock_level ((totalUnits sales7 : ℚ) / 7)) := rfl
  have hd : (analyze_inventory_health inv sales7).days_remaining =
      daysRemaining inv.stock_level ((totalUnits sales7 : ℚ) / 7) := rfl
  rw [hs, hu, hd]
  unfold invStatus invUrgency
  split_ifs <;> simp_all

/-! ## Competitor pricing analysis (src/tools/pricing_tools.py, lines 80-144) -/

/-- `price_position` values. -/
inductive PricePosition
  | lowest
  | highest
  | competitive
deriving DecidableEq, Repr

/-- `recommendation` values of `analyze_competitor_pricing`. -/
inductive PriceRec
  | consider_price_increase
  | consider_price_decrease
  | maintain_current_price
deriving DecidableEq, Repr

/-- `our_price = float(product.current_price or product.base_price)`. -/
def ourPrice (p : Product) : ℚ := pyOr p.current_price p.base_price

/-- The success dictionary of `analyze_competitor_pricing`. -/
structure CompAnalysis where
  our_price : ℚ
  competitor_avg : ℚ
  competitor_min : ℚ
  competitor_max : ℚ
  price_position : PricePosition
  price_advantage : ℚ
  recommendation : PriceRec
  competitor_count : ℕ
  confidence : ℚ
deriving DecidableEq, Repr

/-- `analyze_competitor_pricing`.  `prices` are the competitor prices of
the 7-day window; the empty window returns `none` (the source's
`No recent competor data` error dictionary, which also carries a
`maintain_current_price` recommendation).  On nonempty input `min?`/`max?`
are the list minimum/maximum (`getD 0` is unreachable).  The position and
advantage assignments share one `if`-chain in the source; they are two
chains with identical conditions here. -/
def analyze_competitor_pricing (p : Product) (prices : List ℚ) : Option CompAnalysis :=
  if prices.length = 0 then none
  else
    let avg_price := prices.sum / prices.length
    let min_price := prices.min?.getD 0
    let max_price := prices.max?.getD 0
    let our_price := ourPrice p
    let position : PricePosition :=
      if our_price < min_price then .lowest
      else if our_price > max_price then .highest
      else .competitive
    let advantage : ℚ :=
      if our_price < min_price then min_price - our_price
      else if our_price > max_price then our_price - max_price
      else 0
    let recommendation : PriceRec :=
      if position = .lowest ∧ advantage > avg_price * (10/100) then .consider_price_increase
      else if position = .highest ∧ advantage > avg_price * (15/100) then .consider_price_decrease
      else .maintain_current_price
    some
      { our_price := our_price,
        competitor_avg := round2 avg_price,
        competitor_min := round2 min_price,
        competitor_max := round2 max_price,
        price_position := position,
        price_advantage := round2 advantage,
        recommendation := recommendation,
        competitor_count := prices.length,
        confidence := min (95/100) ((prices.length : ℚ) / 5) }

/-- C7 counterexample: our price 89 against competitor prices [95, 105]
(average 100).  Our price is the lowest and more than 10% below the
average (89 < 90), so the claim predicts `consider_price_increase`, but
the code compares the gap to the *minimum* (95 − 89 = 6, not > 10) and
returns `maintain_current_price`. -/
theorem competitor_recommendation_counterexample :
    analyze_competitor_pricing sampleProduct [95, 105] = some
      { our_price := 89, competitor_avg := 100, competitor_min := 95,
        competitor_max := 105, price_position := PricePosition.lowest,
        price_advantage := 6,
        recommendation := PriceRec.maintain_current_price,
        competitor_count := 2, confidence := 2/5 } ∧
    (100:ℚ) - 89 > 100 * (10/100) ∧
    PriceRec.maintain_current_price ≠ PriceRec.consider_price_increase := by
  refine ⟨?_, by norm_num, by simp⟩
  have hmin : (([95, 105] : List ℚ).min?).getD 0 = 95 := by
    norm_num [List.min?, List.foldl, min_def]
  have hmax : (([95, 105] : List ℚ).max?).getD 0 = 105 := by
    norm_num [List.max?, List.foldl, max_def]
  have hour : ourPrice sampleProduct = 89 := by norm_num [ourPrice, sampleProduct, pyOr]
  have hconf : min ((95:ℚ)/100) (((([95, 105] : List ℚ).length) : ℚ) / 5) = 2/5 := by
    rw [min_eq_right] <;> norm_num
  dsimp only [analyze_competitor_pricing]
  rw [if_neg (by norm_num), hmin, hmax, hour, hconf]
  norm_num [round2, round_eq]

/-- C7 amended: with at least one competitor observation, the
recommendation is `consider_price_increase` exactly when our price is the
lowest (strictly below the minimum competitor price) and the gap *to that
minimum* exceeds 10% of the competitor average; `consider_price_decrease`
exactly when our price is the highest and the gap to the maximum exceeds
15% of the average; and `maintain_current_price` in all other cases. -/
theorem competitor_recommendation_rule (p : Product) (prices : List ℚ)
    (h : prices.length ≠ 0) :
    ((analyze_competitor_pricing p prices).map (·.recommendation) =
        some PriceRec.consider_price_increase ↔
      ourPrice p < prices.min?.getD 0 ∧
        prices.min?.getD 0 - ourPrice p > prices.sum / prices.length * (10/100)) ∧
    ((analyze_competitor_pricing p prices).map (·.recommendation) =
        some PriceRec.consider_price_decrease ↔
      ¬ ourPrice p < prices.min?.getD 0 ∧ ourPrice p > prices.max?.getD 0 ∧
        ourPrice p - prices.max?.getD 0 > prices.sum / prices.length * (15/100)) ∧
    ((analyze_competitor_pricing p prices).map (·.recommendation) =
        some PriceRec.maintain_current_price ↔
      ¬ (ourPrice p < prices.min?.getD 0 ∧
          prices.min?.getD 0 - ourPrice p > prices.sum / prices.length * (10/100)) ∧
      ¬ (¬ ourPrice p < prices.min?.getD 0 ∧ ourPrice p > prices.max?.getD 0 ∧
          ourPrice p - prices.max?.getD 0 > prices.sum / prices.length * (15/100))) := by
  dsimp only [analyze_competitor_pricing]
  rw [if_neg h]
  dsimp only [Option.map]
  split_ifs <;> simp_all

/-- Witness for amended C7 at a concrete input. -/
theorem competitor_recommendation_rule_witness :
    ((analyze_competitor_pricing sampleProduct [95, 105]).map (·.recommendation) =
        some PriceRec.consider_price_increase ↔
      ourPrice sampleProduct < ([95, 105] : List ℚ).min?.getD 0 ∧
        ([95, 105] : List ℚ).min?.getD 0 - ourPrice sampleProduct >
          ([95, 105] : List ℚ).sum / (([95, 105] : List ℚ).length : ℚ) * (10/100)) ∧
    ((analyze_competitor_pricing sampleProduct [95, 105]).map (·.recommendation) =
        some PriceRec.consider_price_decrease ↔
      ¬ ourPrice sampleProduct < ([95, 105] : List ℚ).min?.getD 0 ∧
        ourPrice sampleProduct > ([95, 105] : List ℚ).max?.getD 0 ∧
        ourPrice sampleProduct - ([95, 105] : List ℚ).max?.getD 0 >
          ([95, 105] : List ℚ).sum / (([95, 105] : List ℚ).length : ℚ) * (15/100)) ∧
    ((analyze_competitor_pricing sampleProduct [95, 105]).map (·.recommendation) =
        some PriceRec.maintain_current_price ↔
      ¬ (ourPrice sampleProduct < ([95, 105] : List ℚ).min?.getD 0 ∧
          ([95, 105] : List ℚ).min?.getD 0 - ourPrice sampleProduct >
            ([95, 105] : List ℚ).sum / (([95, 105] : List ℚ).length : ℚ) * (10/100)) ∧
      ¬ (¬ ourPrice sampleProduct < ([95, 105] : List ℚ).min?.getD 0 ∧
          ourPrice sampleProduct > ([95, 105] : List ℚ).max?.getD 0 ∧
          ourPrice sampleProduct - ([95, 105] : List ℚ).max?.getD 0 >
            ([95, 105] : List ℚ).sum / (([95, 105] : List ℚ).length : ℚ) * (15/100))) :=
  competitor_recommendation_rule sampleProduct [95, 105] (by norm_num)

/-! ## Optimal price (src/tools/pricing_tools.py, lines 146-204) -/

/-- The optimal price of `calculate_optimal_price` as computed before the
final 2-decimal display rounding: cost floor times the three adjustments,
floored at the cost-based minimum (`max`), then capped at 1.5× the
competitor average (`min` — applied after the floor, exactly as in the
source). -/
def optimalPriceRaw (cost_price current_price demand_score elasticity competitor_avg : ℚ) : ℚ :=
  let min_price := cost_price * (12/10)
  let demand_adjustment := 1 + (demand_score - 1/2) * (2/10)
  let competition_ratio := if 0 < current_price then competitor_avg / current_price else 1
  let competition_adjustment := min (max competition_ratio (8/10)) (12/10)
  let elasticity_adjustment : ℚ :=
    if elasticity < -(3/2) then 95/100
    else if elasticity > -(1/2) then 105/100
    else 1
  let optimal_price := min_price * demand_adjustment * competition_adjustment * elasticity_adjustment
  let optimal_price := max optimal_price min_price
  min optimal_price (competitor_avg * (15/10))

/-- The dictionary `calculate_optimal_price` returns, restricted to the
price fields the claims read (the adjustment-factor echo, recommendation
tag and confidence are omitted). -/
structure OptimalResult where
  current_price : ℚ
  optimal_price : ℚ
  min_price : ℚ
deriving DecidableEq, Repr

/-- `calculate_optimal_price`.  `competitor_avg?` is the (rounded) average
from `analyze_competitor_pricing` when that analysis succeeded, `none`
when it returned an error — the source then falls back to the current
price. -/
def calculate_optimal_price (p : Product) (competitor_avg? : Option ℚ) : OptimalResult :=
  let cost_price := pyOr p.cost_price 0
  let current_price := ourPrice p
  let demand_score := pyOr p.demand_score (1/2)
  let elasticity := pyOr p.price_elasticity (-1)
  let competitor_avg := match competitor_avg? with
    | none => current_price
    | some a => a
  { current_price := round2 current_price,
    optimal_price :=
      round2 (optimalPriceRaw cost_price current_price demand_score elasticity competitor_avg),
    min_price := round2 (cost_price * (12/10)) }

/-- C8 counterexample: cost price 50 (cost floor 60) and competitor
average 10 (cap 15).  The cap is applied after the floor, so the returned
optimal price is 15, strictly below the cost-based minimum 60. -/
theorem optimal_price_floor_counterexample :
    (calculate_optimal_price sampleProduct (some 10)).optimal_price = 15 ∧
    (calculate_optimal_price sampleProduct (some 10)).min_price = 60 ∧
    ¬ ((60:ℚ) ≤ 15) := by
  refine ⟨?_, ?_, by norm_num⟩
  · have hraw : optimalPriceRaw 50 89 (1/2) (-1) 10 = 15 := by
      unfold optimalPriceRaw
      norm_num [min_def, max_def]
    have hfields : (calculate_optimal_price sampleProduct (some 10)).optimal_price =
        round2 (optimalPriceRaw 50 89 (1/2) (-1) 10) := by
      simp only [calculate_optimal_price, sampleProduct, pyOr, ourPrice]
      norm_num
    rw [hfields, hraw]
    norm_num [round2, round_eq]
  · have hfields : (calculate_optimal_price sampleProduct (some 10)).min_price =
        round2 ((50:ℚ) * (12/10)) := by
      simp only [calculate_optimal_price, sampleProduct, pyOr, ourPrice]
      norm_num
    rw [hfields]
    norm_num [round2, round_eq]

/-- C8 amended: the optimal price computed by `calculate_optimal_price`
(before its 2-decimal display rounding) is always at most 1.5× the
competitor average; it is at least the cost-based minimum `cost × 1.2`
exactly when that floor does not exceed the cap (the cap is applied after
the floor and wins when they conflict).  The returned rounded price obeys
the same bounds up to half a cent. -/
theorem optimal_price_bounds (p : Product) (avg : ℚ) :
    (calculate_optimal_price p (some avg)).optimal_price =
      round2 (optimalPriceRaw (pyOr p.cost_price 0) (ourPrice p)
        (pyOr p.demand_score (1/2)) (pyOr p.price_elasticity (-1)) avg) ∧
    optimalPriceRaw (pyOr p.cost_price 0) (ourPrice p)
        (pyOr p.demand_score (1/2)) (pyOr p.price_elasticity (-1)) avg ≤ avg * (15/10) ∧
    (pyOr p.cost_price 0 * (12/10) ≤ avg * (15/10) →
      pyOr p.cost_price 0 * (12/10) ≤ optimalPriceRaw (pyOr p.cost_price 0) (ourPrice p)
        (pyOr p.demand_score (1/2)) (pyOr p.price_elasticity (-1)) avg) ∧
    (calculate_optimal_price p (some avg)).optimal_price ≤ avg * (15/10) + 1/200 ∧
    (pyOr p.cost_price 0 * (12/10) ≤ avg * (15/10) →
      pyOr p.cost_price 0 * (12/10) - 1/200 ≤
        (calculate_optimal_price p (some avg)).optimal_price) := by
  have hcap : optimalPriceRaw (pyOr p.cost_price 0) (ourPrice p)
      (pyOr p.demand_score (1/2)) (pyOr p.price_elasticity (-1)) avg ≤ avg * (15/10) :=
    min_le_right _ _
  have hfloor : pyOr p.cost_price 0 * (12/10) ≤ avg * (15/10) →
      pyOr p.cost_price 0 * (12/10) ≤ optimalPriceRaw (pyOr p.cost_price 0) (ourPrice p)
        (pyOr p.demand_score (1/2)) (pyOr p.price_elasticity (-1)) avg := by
    intro hle
    unfold optimalPriceRaw
    exact le_min (le_max_right _ _) hle
  have hround := round2_within (optimalPriceRaw (pyOr p.cost_price 0) (ourPrice p)
    (pyOr p.demand_score (1/2)) (pyOr p.price_elasticity (-1)) avg)
  refine ⟨rfl, hcap, hfloor, ?_, ?_⟩
  · show round2 _ ≤ _
    linarith [hround.2]
  · intro hle
    show _ ≤ round2 _
    linarith [hround.1, hfloor hle]

/-- Witness for amended C8 at a concrete input. -/
theorem optimal_price_bounds_witness :
    (calculate_optimal_price sampleProduct (some 100)).optimal_price =
      round2 (optimalPriceRaw (pyOr sampleProduct.cost_price 0) (ourPrice sampleProduct)
        (pyOr sampleProduct.demand_score (1/2)) (pyOr sampleProduct.price_elasticity (-1)) 100) ∧
    pyOr sampleProduct.cost_price 0 * (12/10) ≤ (100:ℚ) * (15/10) ∧
    pyOr sampleProduct.cost_price 0 * (12/10) ≤
      optimalPriceRaw (pyOr sampleProduct.cost_price 0) (ourPrice sampleProduct)
        (pyOr sampleProduct.demand_score (1/2)) (pyOr sampleProduct.price_elasticity (-1)) 100 ∧
    (calculate_optimal_price sampleProduct (some 100)).optimal_price ≤ (100:ℚ) * (15/10) + 1/200 :=
  have h : pyOr sampleProduct.cost_price 0 * (12/10) ≤ (100:ℚ) * (15/10) := by
    norm_num [sampleProduct, pyOr]
  ⟨(optimal_price_bounds sampleProduct 100).1, h,
   (optimal_price_bounds sampleProduct 100).2.2.1 h,
   (optimal_price_bounds sampleProduct 100).2.2.2.1⟩

/-! ## Signal correlator (src/agents/pricing_decision_agent.py, lines 245-297)

`listen_for_pricing_decisions` subscribes to the three signal topics and
keeps `product_data`, a `defaultdict` from product id to a three-slot
record.  Each well-formed message writes its payload into its product's
slot for its type; when all three slots are filled the pricing decision is
invoked for that product and its slots are reset.  Payload dictionaries
are abstracted to an opaque datum: they are only stored and forwarded, and
every stored payload is truthy (it carries the product id), so
`all(product_data[product_id].values())` is the three-way `isSome` test. -/

/-- The three signal topics / event types. -/
inductive SigType
  | competitor_data
  | demand_score
  | inventory_update
deriving DecidableEq, Repr

/-- Opaque payload datum. -/
abbrev Payload := ℕ

/-- A well-formed signal message: its event type, the product id extracted
from the payload (`payload.get('product_id') or payload.get('id')`;
messages without one are skipped by the loop and never touch the state),
and the payload itself. -/
structure SigMsg where
  stype : SigType
  pid : String
  payload : Payload
deriving DecidableEq, Repr

/-- The three-slot record
`{'competitor_data': ..., 'demand_score': ..., 'inventory_update': ...}`. -/
structure Slots where
  competitor_data : Option Payload
  demand_score : Option Payload
  inventory_update : Option Payload
deriving DecidableEq, Repr

/-- The `defaultdict` default: all three slots `None`. -/
def Slots.empty : Slots := ⟨none, none, none⟩

/-- Write a payload into the slot for one signal type (overwriting). -/
def setSlot (s : Slots) (t : SigType) (v : Payload) : Slots :=
  match t with
  | .competitor_data => { s with competitor_data := some v }
  | .demand_score => { s with demand_score := some v }
  | .inventory_update => { s with inventory_update := some v }

/-- Read the slot for one signal type. -/
def getSlot (s : Slots) (t : SigType) : Option Payload :=
  match t with
  | .competitor_data => s.competitor_data
  | .demand_score => s.demand_score
  | .inventory_update => s.inventory_update

/-- `all(product_data[product_id].values())` for stored (truthy)
payloads. -/
def Slots.full (s : Slots) : Bool :=
  s.competitor_data.isSome && s.demand_score.isSome && s.inventory_update.isSome

/-- Correlator state: product id → slots. -/
def CorrState := String → Slots

/-- Initial state: the `defaultdict` with no entries. -/
def emptyCorrState : CorrState := fun _ => Slots.empty

/-- Point update of the state at one product id. -/
def updateState (st : CorrState) (pid : String) (s : Slots) : CorrState :=
  fun q => if q = pid then s else st q

/-- One iteration of the `pubsub.listen()` loop on a well-formed signal
message: write the payload into that product's slot for the message type;
if all three slots are then filled, invoke and publish the pricing
decision (modelled as emitting the product id) and reset the product's
slots to empty. -/
def corrStep (st : CorrState) (m : SigMsg) : CorrState × Option String :=
  let s := setSlot (st m.pid) m.stype m.payload
  if s.full then (updateState st m.pid Slots.empty, some m.pid)
  else (updateState st m.pid s, none)

/-- Process messages in arrival order, collecting fired decisions in
order. -/
def corrRun (st : CorrState) (ms : List SigMsg) : CorrState × List String :=
  match ms with
  | [] => (st, [])
  | m :: rest =>
    let r := corrStep st m
    let rr := corrRun r.1 rest
    (rr.1, r.2.toList ++ rr.2)

/-- C2: (i) processing a message never reads or writes another product
id's slots; (ii) a decision fires in a step exactly when the written slot
completes the triple; (iii) a firing step emits that product id and resets
its slots to empty; (iv) a message whose type does not fill the last
missing slot — in particular a duplicate of an already-present type before
completion — fires no decision and just overwrites its own slot
(last-write-wins); (v) for the three signal types arriving in any order
for one product, exactly one decision fires, exactly at the third message,
and the slots are empty afterwards. -/
theorem correlator_behavior :
    (∀ (st : CorrState) (m : SigMsg) (q : String), q ≠ m.pid →
      (corrStep st m).1 q = st q) ∧
    (∀ (st : CorrState) (m : SigMsg),
      ((corrStep st m).2).isSome = (setSlot (st m.pid) m.stype m.payload).full) ∧
    (∀ (st : CorrState) (m : SigMsg),
      (setSlot (st m.pid) m.stype m.payload).full = true →
      (corrStep st m).1 m.pid = Slots.empty ∧ (corrStep st m).2 = some m.pid) ∧
    (∀ (st : CorrState) (m : SigMsg) (t : SigType), t ≠ m.stype →
      getSlot (st m.pid) t = none →
      (corrStep st m).2 = none ∧
      (corrStep st m).1 m.pid = setSlot (st m.pid) m.stype m.payload) ∧
    (∀ (pid : String) (p1 p2 p3 : Payload) (t1 t2 t3 : SigType),
      t1 ≠ t2 → t1 ≠ t3 → t2 ≠ t3 →
      (corrRun emptyCorrState [⟨t1, pid, p1⟩, ⟨t2, pid, p2⟩, ⟨t3, pid, p3⟩]).2 = [pid] ∧
      (corrRun emptyCorrState [⟨t1, pid, p1⟩, ⟨t2, pid, p2⟩, ⟨t3, pid, p3⟩]).1 pid = Slots.empty ∧
      (corrRun emptyCorrState [⟨t1, pid, p1⟩, ⟨t2, pid, p2⟩]).2 = []) := by
  refine ⟨?_, ?_, ?_, ?_, ?_⟩
  · intro st m q hq
    dsimp only [corrStep]
    split <;> simp [updateState, hq]
  · intro st m
    dsimp only [corrStep]
    split
    · simp_all
    · simp_all
  · intro st m hfull
    dsimp only [corrStep]
    rw [if_pos hfull]
    exact ⟨by simp [updateState], rfl⟩
  · rintro st ⟨mt, mp, mv⟩ t ht hnone
    have hfull : (setSlot (st mp) mt mv).full = false := by
      cases t <;> cases mt <;> simp_all [getSlot, setSlot, Slots.full]
    dsimp only [corrStep]
    rw [if_neg (by simp [hfull])]
    exact ⟨rfl, by simp [updateState]⟩
  · intro pid p1 p2 p3 t1 t2 t3 h12 h13 h23
    cases t1 <;> cases t2 <;> cases t3 <;>
      simp_all [corrRun, corrStep, setSlot, Slots.full, Slots.empty, updateState, emptyCorrState]

/-- Witness for C2 at concrete inputs. -/
theorem correlator_behavior_witness :
    ((corrStep emptyCorrState ⟨SigType.competitor_data, "p1", 7⟩).1 "p2" =
      emptyCorrState "p2") ∧
    (((corrStep emptyCorrState ⟨SigType.competitor_data, "p1", 7⟩).2).isSome =
      (setSlot (emptyCorrState "p1") SigType.competitor_data 7).full) ∧
    ((corrStep (updateState emptyCorrState "p1" ⟨some 1, some 2, none⟩)
        ⟨SigType.inventory_update, "p1", 9⟩).1 "p1" = Slots.empty ∧
      (corrStep (updateState emptyCorrState "p1" ⟨some 1, some 2, none⟩)
        ⟨SigType.inventory_update, "p1", 9⟩).2 = some "p1") ∧
    ((corrStep emptyCorrState ⟨SigType.competitor_data, "p1", 7⟩).2 = none ∧
      (corrStep emptyCorrState ⟨SigType.competitor_data, "p1", 7⟩).1 "p1" =
        setSlot (emptyCorrState "p1") SigType.competitor_data 7) ∧
    ((corrRun emptyCorrState [⟨SigType.demand_score, "p1", 7⟩,
        ⟨SigType.competitor_data, "p1", 8⟩, ⟨SigType.inventory_update, "p1", 9⟩]).2 = ["p1"] ∧
      (corrRun emptyCorrState [⟨SigType.demand_score, "p1", 7⟩,
        ⟨SigType.competitor_data, "p1", 8⟩, ⟨SigType.inventory_update, "p1", 9⟩]).1 "p1" =
        Slots.empty ∧
      (corrRun emptyCorrState [⟨SigType.demand_score, "p1", 7⟩,
        ⟨SigType.competitor_data, "p1", 8⟩]).2 = []) :=
  ⟨correlator_behavior.1 emptyCorrState ⟨SigType.competitor_data, "p1", 7⟩ "p2" (by decide),
   correlator_behavior.2.1 emptyCorrState ⟨SigType.competitor_data, "p1", 7⟩,
   correlator_behavior.2.2.1 (updateState emptyCorrState "p1" ⟨some 1, some 2, none⟩)
     ⟨SigType.inventory_update, "p1", 9⟩ (by decide),
   correlator_behavior.2.2.2.1 emptyCorrState ⟨SigType.competitor_data, "p1", 7⟩
     SigType.demand_score (by decide) rfl,
   correlator_behavior.2.2.2.2 "p1" 7 8 9 SigType.demand_score SigType.competitor_data
     SigType.inventory_update (by decide) (by decide) (by decide)⟩

end DynamicPricing
